import Mathlib

/-!
Verification of the devTinder-Frontend client logic: the chat screen
(`src/pages/Chat.tsx`), the socket/presence provider (`SocketContext`),
the discovery feed (`Dashboard`) and the conversation list (`Matches`).

Timestamps are modelled as epoch milliseconds (`Int`); the source carries
them as ISO strings but every use parses them with `new Date(...)` and
computes on millisecond values.  The browser/runtime facts the embedding
relies on are stated at each definition.
-/

namespace DevTinder

/-- Sender block of a `Message` (Chat.tsx, `interface Message`).  `_id` is
rendered as `id`. -/
structure Sender where
  id : String
  firstName : String
  lastName : String
deriving DecidableEq, Repr

/-- A chat message (Chat.tsx, `interface Message`).  `read`/`readAt` are
optional in the source; `readAt` is unused by the verified logic. -/
structure Message where
  id : String
  sender : Sender
  content : String
  timestamp : Int
  read : Option Bool := none
deriving DecidableEq, Repr

/-- A conversation participant (Chat.tsx, `interface ChatData`). -/
structure Participant where
  id : String
  firstName : String
  lastName : String
  isOnline : Option Bool := none
  lastSeen : Option Int := none
deriving DecidableEq, Repr

/-- The fetched conversation (Chat.tsx, `interface ChatData`). -/
structure ChatData where
  id : String
  participants : List Participant
  messages : List Message
deriving DecidableEq, Repr

/- ===== SocketContext (`SocketProvider`): presence set ===== -/

/-- A presence event delivered on the socket (`user_online` / `user_offline`). -/
inductive PresenceEvent where
  | online (userId : String)
  | offline (userId : String)
deriving DecidableEq, Repr

/-- `user_online` handler:
`setOnlineUsers(prev => [...prev.filter(id => id !== userId), userId])`. -/
def userOnlineHandler (userId : String) (prev : List String) : List String :=
  (prev.filter (fun i => i ≠ userId)) ++ [userId]

/-- `user_offline` handler:
`setOnlineUsers(prev => prev.filter(id => id !== userId))`. -/
def userOfflineHandler (userId : String) (prev : List String) : List String :=
  prev.filter (fun i => i ≠ userId)

/-- One socket presence event applied to the `onlineUsers` state. -/
def applyPresenceEvent (prev : List String) : PresenceEvent → List String
  | PresenceEvent.online u => userOnlineHandler u prev
  | PresenceEvent.offline u => userOfflineHandler u prev

/- ===== The shared online-status rule (three copies in the source) ===== -/

/-- The `{isOnline?, lastSeen?}` shape all three `getOnlineStatus` copies
destructure.  A missing `isOnline` is JS `undefined`, which is falsy. -/
structure PresenceInfo where
  isOnline : Option Bool := none
  lastSeen : Option Int := none
deriving DecidableEq, Repr

/-- `getOnlineStatus` from Chat.tsx (chat header).  `diffInMinutes` is
`Math.floor((now - lastSeen) / 60000)`, i.e. floor division. -/
def chatGetOnlineStatus (u : PresenceInfo) (now : Int) : String :=
  if u.isOnline = some true then "Online"
  else
    match u.lastSeen with
    | some ls =>
        let diffInMinutes := Int.fdiv (now - ls) 60000
        if diffInMinutes < 60 then toString diffInMinutes ++ "m ago"
        else if diffInMinutes < 1440 then toString (Int.fdiv diffInMinutes 60) ++ "h ago"
        else toString (Int.fdiv diffInMinutes 1440) ++ "d ago"
    | none => "Offline"

/-- `getOnlineStatus` from the Dashboard (discovery card); same body as the
chat copy. -/
def dashboardGetOnlineStatus (u : PresenceInfo) (now : Int) : String :=
  if u.isOnline = some true then "Online"
  else
    match u.lastSeen with
    | some ls =>
        let diffInMinutes := Int.fdiv (now - ls) 60000
        if diffInMinutes < 60 then toString diffInMinutes ++ "m ago"
        else if diffInMinutes < 1440 then toString (Int.fdiv diffInMinutes 60) ++ "h ago"
        else toString (Int.fdiv diffInMinutes 1440) ++ "d ago"
    | none => "Offline"

/-- `getOnlineStatus` from the Matches page (conversation list); returns a
`{text, color}` pair, same bucketing rule on the text. -/
def matchesGetOnlineStatus (u : PresenceInfo) (now : Int) : String × String :=
  if u.isOnline = some true then ("Online", "text-green-600")
  else
    match u.lastSeen with
    | some ls =>
        let diffInMinutes := Int.fdiv (now - ls) 60000
        if diffInMinutes < 60 then (toString diffInMinutes ++ "m ago", "text-gray-500")
        else if diffInMinutes < 1440 then (toString (Int.fdiv diffInMinutes 60) ++ "h ago", "text-gray-500")
        else (toString (Int.fdiv diffInMinutes 1440) ++ "d ago", "text-gray-500")
    | none => ("Offline", "text-gray-500")

/- ===== Chat screen (Chat.tsx): mount, live events, send path ===== -/

/-- Payload of a `receive_message` socket event (`{chatId, sender, message,
timestamp}`). -/
structure LiveMessage where
  chatId : String
  sender : String
  message : String
  timestamp : Int
deriving DecidableEq, Repr

/-- Payload of a `user_typing` / `user_stop_typing` socket event
(`{chatId, userId}`). -/
structure TypingEventData where
  chatId : String
  userId : String
deriving DecidableEq, Repr

/-- The chat screen's component state (Chat.tsx `useState` hooks), plus two
bookkeeping flags of the embedding: `subscribed` (the three socket listeners
are registered) and `fetchPending` (the history GET has been issued but its
promise has not resolved). -/
structure ChatScreen where
  chatId : Option String
  chat : Option ChatData
  newMessage : String
  sending : Bool
  typing : Bool
  otherUserTyping : Bool
  subscribed : Bool
  fetchPending : Bool
deriving DecidableEq, Repr

/-- JS falsiness of the `chatId` route param (`!chatId`): `undefined` or the
empty string. -/
def chatIdMissing : Option String → Bool
  | none => true
  | some c => c = ""

/-- Actions observable while the screen is mounting, in the order they
happen. -/
inductive MountAction where
  | fetchStart
  | subscribe
  | fetchResolve
deriving DecidableEq, Repr

/-- Mounting the chat screen.  React runs the two `useEffect` bodies
synchronously, in declaration order, after the first commit: the first
effect calls `fetchChat()`, an `async` function that suspends at its first
`await` (the GET is issued, its resolution is a later event-loop task); the
second effect then emits `join_chat` and registers the `receive_message`,
`user_typing` and `user_stop_typing` listeners.  `socket` is assumed
connected (non-null).  Returns the state at the end of the mount pass and
the ordered trace of mount actions. -/
def mountChatScreen (cid : Option String) : ChatScreen × List MountAction :=
  if chatIdMissing cid then
    ({ chatId := cid, chat := none, newMessage := "", sending := false,
       typing := false, otherUserTyping := false, subscribed := false,
       fetchPending := false }, [])
  else
    ({ chatId := cid, chat := none, newMessage := "", sending := false,
       typing := false, otherUserTyping := false, subscribed := true,
       fetchPending := true }, [MountAction.fetchStart, MountAction.subscribe])

/-- Resolution of the history fetch (`fetchChat` success path):
`setChat(response.data)`. -/
def applyFetchResolve (history : ChatData) (s : ChatScreen) : ChatScreen :=
  { s with chat := some history, fetchPending := false }

/-- The `Message` the `receive_message` listener builds from a live payload:
`_id` is `Date.now().toString()`, sender display fields are the minimal
`{_id: data.sender, firstName: 'User', lastName: ''}`. -/
def liveToMessage (d : LiveMessage) (now : Int) : Message :=
  { id := toString now
    sender := { id := d.sender, firstName := "User", lastName := "" }
    content := d.message
    timestamp := d.timestamp }

/-- The `receive_message` listener.  It exists only while subscribed; it
appends only when `data.chatId === chatId` (strict equality, false against
`undefined`), and `setChat(prev => prev ? {...} : null)` leaves a
not-yet-loaded (`null`) chat unchanged — the live message is then lost. -/
def receiveMessage (d : LiveMessage) (now : Int) (s : ChatScreen) : ChatScreen :=
  if s.subscribed = true ∧ s.chatId = some d.chatId then
    { s with chat :=
        match s.chat with
        | none => none
        | some c => some { c with messages := c.messages ++ [liveToMessage d now] } }
  else s

/-- The `user_typing` listener: sets the flag when `data.chatId === chatId`
and `data.userId !== user?.id`; `viewerId` is the authenticated user's id. -/
def userTypingOn (viewerId : String) (d : TypingEventData) (s : ChatScreen) : ChatScreen :=
  if s.subscribed = true ∧ s.chatId = some d.chatId ∧ d.userId ≠ viewerId then
    { s with otherUserTyping := true }
  else s

/-- The `user_stop_typing` listener: clears the flag under the same
condition as `userTypingOn`. -/
def userTypingOff (viewerId : String) (d : TypingEventData) (s : ChatScreen) : ChatScreen :=
  if s.subscribed = true ∧ s.chatId = some d.chatId ∧ d.userId ≠ viewerId then
    { s with otherUserTyping := false }
  else s

/-- JS `String.prototype.trim()`: the string with leading and trailing
whitespace stripped (written out structurally so that it evaluates by
reduction). -/
def jsTrim (s : String) : String :=
  String.mk (((s.data.dropWhile Char.isWhitespace).reverse.dropWhile
    Char.isWhitespace).reverse)

/-- Outcome of the durable `POST /chat/:chatId/messages` call: the persisted
`Message` on success. -/
def SendOutcome := Except Unit Message

/-- Effects of one `handleSendMessage` invocation: the API POST (chat id and
content) if issued, the `send_message` socket emission if issued, and
whether a `typing_stop` was emitted. -/
structure SendEffects where
  apiPost : Option (String × String)
  socketSend : Option (String × String)
  stopEmitted : Bool
deriving DecidableEq, Repr

/-- The synchronous part of `handleSendMessage`, up to the `await` of the
POST: the guard `(!newMessage.trim() || sending || !chatId) return`, then
`setSending(true)`, capture of `messageContent = newMessage.trim()`,
`setNewMessage('')`, and the conditional typing-stop.  Returns the state at
the suspension point, the request `(chatId, content)` if one was issued, and
whether `typing_stop` was emitted. -/
def handleSendSync (s : ChatScreen) : ChatScreen × Option (String × String) × Bool :=
  match s.chatId with
  | none => (s, none, false)
  | some cid =>
      if jsTrim s.newMessage = "" ∨ s.sending = true ∨ cid = "" then (s, none, false)
      else
        let content := jsTrim s.newMessage
        let s1 := { s with sending := true, newMessage := "" }
        let s2 := if s1.typing then { s1 with typing := false } else s1
        (s2, some (cid, content), s1.typing)

/-- The continuation of `handleSendMessage` after the POST settles.  On
success the server's `Message` is appended (`setChat(prev => prev ? ... :
null)`) and `send_message` is emitted on the socket; on failure the trimmed
content is put back into the input.  Either way `setSending(false)` runs in
`finally`. -/
def handleSendResume (outcome : Except Unit Message) (cid content : String)
    (s : ChatScreen) : ChatScreen × Option (String × String) :=
  match outcome with
  | Except.ok m =>
      ({ s with
          chat :=
            match s.chat with
            | none => none
            | some c => some { c with messages := c.messages ++ [m] },
          sending := false }, some (cid, content))
  | Except.error _ =>
      ({ s with newMessage := content, sending := false }, none)

/-- Whole `handleSendMessage` run: synchronous part, then (when a request was
issued) the resumption with the POST's outcome. -/
def handleSendMessage (s : ChatScreen) (outcome : Except Unit Message) :
    ChatScreen × SendEffects :=
  match handleSendSync s with
  | (s1, none, _) => (s1, { apiPost := none, socketSend := none, stopEmitted := false })
  | (s1, some (cid, content), stopE) =>
      let r := handleSendResume outcome cid content s1
      (r.1, { apiPost := some (cid, content), socketSend := r.2, stopEmitted := stopE })

/- ===== Chat screen: typing debounce (`handleTyping`) ===== -/

/-- A typing emission on the socket. -/
inductive TypingSignal where
  | start
  | stop
deriving DecidableEq, Repr

/-- State of the typing debounce: the committed `typing` state, the armed
idle timer if any — carrying the `typing` value its callback closed over
(the `const` of the render in which `handleTyping` was created, NOT the
live state; a classic stale closure) — and the emissions so far. -/
structure TypingDebounce where
  typing : Bool
  timer : Option Bool
  emitted : List TypingSignal
deriving DecidableEq, Repr

/-- One keystroke (`handleTyping`).  The handler invoked is the one of the
last committed render, so `typing` reads the committed state; `socket` and
`chatId` are assumed present.  If `!typing`, it sets the flag and emits
`typing_start`; it then clears any pending timeout and arms a fresh
1-second timer whose callback closes over this render's `typing` value. -/
def handleTyping (s : TypingDebounce) : TypingDebounce :=
  let captured := s.typing
  let s1 :=
    if captured = false then
      { s with typing := true, emitted := s.emitted ++ [TypingSignal.start] }
    else s
  { s1 with timer := some captured }

/-- Expiry of the armed timer with no intervening keystroke: the callback
runs `if (typing && socket && chatId) { setTyping(false); emit typing_stop }`
where `typing` is the value it captured. -/
def typingTimerFire (s : TypingDebounce) : TypingDebounce :=
  match s.timer with
  | none => s
  | some captured =>
      if captured = true then
        { s with typing := false, timer := none,
                 emitted := s.emitted ++ [TypingSignal.stop] }
      else { s with timer := none }

/-- `n` keystrokes in a row, each less than 1 s after the previous (so each
keystroke finds the previous timer still pending and resets it). -/
def keystrokes : Nat → TypingDebounce → TypingDebounce
  | 0, s => s
  | n + 1, s => keystrokes n (handleTyping s)

/-- Idle debounce state before the burst: flag down, no timer, nothing
emitted. -/
def initialTyping : TypingDebounce :=
  { typing := false, timer := none, emitted := [] }

/- ===== Chat screen: date separators ===== -/

/-- Milliseconds per day. -/
def msPerDay : Int := 86400000

/-- `new Date(ts).toDateString()` compared for equality is calendar-day
identity in the viewer's local zone; modelled as the local day ordinal with
`tz` the viewer's zone offset in milliseconds. -/
def toDateString (tz ts : Int) : Int :=
  Int.fdiv (ts + tz) msPerDay

/-- Modelled from the spec: the browser's `toLocaleDateString()`, a
locale-specific rendering of the calendar day (not in the repository);
modelled as an injective rendering of the local day ordinal. -/
def toLocaleDateString (tz ts : Int) : String :=
  toString (toDateString tz ts)

/-- `shouldShowDateSeparator(currentMessage, previousMessage)`: true with no
previous message, or when the two `toDateString()` values differ. -/
def shouldShowDateSeparator (tz : Int) (currentMessage : Message)
    (previousMessage : Option Message) : Bool :=
  match previousMessage with
  | none => true
  | some p => decide (toDateString tz currentMessage.timestamp ≠ toDateString tz p.timestamp)

/-- `formatDateSeparator(timestamp)`: "Today" for the current local calendar
day, "Yesterday" for the previous one (`yesterday.setDate(getDate() - 1)`),
otherwise `toLocaleDateString()`.  `now` is the render-time clock. -/
def formatDateSeparator (tz now ts : Int) : String :=
  if toDateString tz ts = toDateString tz now then "Today"
  else if toDateString tz ts = toDateString tz now - 1 then "Yesterday"
  else toLocaleDateString tz ts

/-- The per-index separator decisions of the render loop
(`shouldShowDateSeparator(message, chat.messages[index - 1])`, where index
`-1` is `undefined`): element `i` of the result is the separator flag before
message `i`.  `prev` threads the previous message. -/
def dateSeparatorFlags (tz : Int) : Option Message → List Message → List Bool
  | _, [] => []
  | prev, m :: rest => shouldShowDateSeparator tz m prev :: dateSeparatorFlags tz (some m) rest

/-- Placeholder used with `List.getD`; indices are always in range where it
appears. -/
def defaultMessage : Message :=
  { id := "", sender := { id := "", firstName := "", lastName := "" },
    content := "", timestamp := 0 }

/-- The local calendar day of message `k` of a timeline. -/
def dayAt (tz : Int) (msgs : List Message) (k : Nat) : Int :=
  toDateString tz ((msgs.getD k defaultMessage).timestamp)

/- ===== Discovery feed (Dashboard): swipe flow ===== -/

/-- The filter options structure (all fields optional strings, empty =
unfiltered). -/
structure FilterOptions where
  minAge : String := ""
  maxAge : String := ""
  skills : String := ""
  experienceLevel : String := ""
  location : String := ""
  lookingFor : String := ""
deriving DecidableEq, Repr

/-- A discovery candidate; only the fields the swipe flow reads. -/
structure Candidate where
  id : String
  firstName : String := ""
  lastName : String := ""
  age : Int := 0
deriving DecidableEq, Repr

/-- The Dashboard component state relevant to the swipe flow. -/
structure Dashboard where
  potentialMatches : List Candidate
  currentIndex : Nat
  swiping : Bool
  filters : FilterOptions
deriving DecidableEq, Repr

/-- A swipe decision. -/
inductive SwipeAction where
  | like
  | pass
deriving DecidableEq, Repr

/-- Response body of `POST /matches/swipe`. -/
structure SwipeResponse where
  isMatch : Bool
deriving DecidableEq, Repr

/-- Effects of one `handleSwipe` invocation: the decision POST (target user
id and action) if issued, the toasts, and the refetch request (with the
filters it carries) if one was made. -/
structure SwipeEffects where
  posted : Option (String × SwipeAction)
  matchToast : Bool
  errorToast : Bool
  refetchRequested : Option FilterOptions
deriving DecidableEq, Repr

/-- `fetchPotentialMatches` resolution: on success `setPotentialMatches`
with the new batch and `setCurrentIndex(0)`; on failure only an error toast
(state untouched). -/
def fetchPotentialMatchesResolve (outcome : Except Unit (List Candidate))
    (d : Dashboard) : Dashboard :=
  match outcome with
  | Except.ok batch => { d with potentialMatches := batch, currentIndex := 0 }
  | Except.error _ => d

/-- `handleSwipe(action)`.  Guard: `if (swiping || currentIndex >=
potentialMatches.length) return`.  Otherwise the decision is posted against
`potentialMatches[currentIndex]`; on success, if `currentIndex <
potentialMatches.length - 1` the cursor advances by one, else
`fetchPotentialMatches(filters)` is awaited (its outcome is
`fetchOutcome`); on failure only an error toast.  `setSwiping(false)` runs
in `finally`. -/
def handleSwipe (a : SwipeAction) (outcome : Except Unit SwipeResponse)
    (fetchOutcome : Except Unit (List Candidate)) (d : Dashboard) :
    Dashboard × SwipeEffects :=
  if d.swiping = true ∨ d.currentIndex ≥ d.potentialMatches.length then
    (d, { posted := none, matchToast := false, errorToast := false,
          refetchRequested := none })
  else
    let target := (d.potentialMatches.get? d.currentIndex).map (fun c => (c.id, a))
    match outcome with
    | Except.ok resp =>
        if d.currentIndex < d.potentialMatches.length - 1 then
          ({ d with currentIndex := d.currentIndex + 1, swiping := false },
           { posted := target, matchToast := resp.isMatch, errorToast := false,
             refetchRequested := none })
        else
          ({ fetchPotentialMatchesResolve fetchOutcome d with swiping := false },
           { posted := target, matchToast := resp.isMatch, errorToast := false,
             refetchRequested := some d.filters })
    | Except.error _ =>
        ({ d with swiping := false },
         { posted := target, matchToast := false, errorToast := true,
           refetchRequested := none })

/- ===== Helper lemmas ===== -/

/-- The `user_online` handler preserves distinctness of the online set. -/
lemma nodup_userOnlineHandler (uid : String) (l : List String) (h : l.Nodup) :
    (userOnlineHandler uid l).Nodup := by
  unfold userOnlineHandler
  rw [List.nodup_append]
  refine ⟨h.filter _, List.nodup_singleton uid, ?_⟩
  intro x hx hx1
  rw [List.mem_filter] at hx
  simp only [List.mem_singleton] at hx1
  subst hx1
  simp at hx

/-- Any presence event preserves distinctness of the online set. -/
lemma nodup_applyPresenceEvent (l : List String) (e : PresenceEvent) (h : l.Nodup) :
    (applyPresenceEvent l e).Nodup := by
  cases e with
  | online u => exact nodup_userOnlineHandler u l h
  | offline u => exact h.filter _

/-- Folding any event sequence over a duplicate-free online set keeps it
duplicate-free. -/
lemma nodup_foldl_presence :
    ∀ (events : List PresenceEvent) (l : List String), l.Nodup →
      (events.foldl applyPresenceEvent l).Nodup := by
  intro events
  induction events with
  | nil => intro l h; exact h
  | cons e rest ih => intro l h; exact ih _ (nodup_applyPresenceEvent l e h)

/- ===== C6 ===== -/

/-- C6: the online set is maintained idempotently: after any sequence of
`user_online` / `user_offline` events (from the empty initial set) each id
occurs at most once; `user_online` leaves exactly one occurrence of the id
even if it was already present; `user_offline` removes the id, and is a
no-op when the id is absent. -/
theorem presence_set_idempotent :
    (∀ events : List PresenceEvent, (events.foldl applyPresenceEvent []).Nodup)
    ∧ (∀ (l : List String) (uid : String), List.count uid (userOnlineHandler uid l) = 1)
    ∧ (∀ (l : List String) (uid : String), uid ∉ userOfflineHandler uid l)
    ∧ (∀ (l : List String) (uid : String), uid ∉ l → userOfflineHandler uid l = l) := by
  refine ⟨fun events => nodup_foldl_presence events [] List.nodup_nil, ?_, ?_, ?_⟩
  · intro l uid
    unfold userOnlineHandler
    rw [List.count_append]
    have h0 : List.count uid (l.filter (fun i => i ≠ uid)) = 0 := by
      rw [List.count_eq_zero]
      intro hmem
      rw [List.mem_filter] at hmem
      simp at hmem
    rw [h0]
    simp
  · intro l uid
    unfold userOfflineHandler
    intro hmem
    rw [List.mem_filter] at hmem
    simp at hmem
  · intro l uid h
    unfold userOfflineHandler
    rw [List.filter_eq_self]
    intro a ha
    simp only [decide_eq_true_eq]
    intro heq
    exact h (heq ▸ ha)

/-- C6 witness: the contract evaluated on concrete event sequences and
sets. -/
theorem presence_set_idempotent_witness :
    (([PresenceEvent.online "a", PresenceEvent.online "a",
        PresenceEvent.offline "b"].foldl applyPresenceEvent []).Nodup)
    ∧ List.count "a" (userOnlineHandler "a" ["a", "b"]) = 1
    ∧ "a" ∉ userOfflineHandler "a" ["a", "b"]
    ∧ userOfflineHandler "c" ["a", "b"] = ["a", "b"] :=
  ⟨presence_set_idempotent.1 _, presence_set_idempotent.2.1 _ _,
   presence_set_idempotent.2.2.1 _ _,
   presence_set_idempotent.2.2.2 _ _ (by decide)⟩

/- ===== C7 ===== -/

/-- C7: the presence status string: `isOnline` truthy yields "Online"
regardless of `lastSeen` (in all three copies); otherwise, with `lastSeen`
`m` whole minutes in the past (`now - ls = m * 60000 + r`, `0 ≤ r < 60000`),
the result is "<m>m ago" for `m < 60`, "<m/60>h ago" for `m < 1440`
(floor), "<m/1440>d ago" otherwise; and the chat-header, conversation-list
and discovery-card copies compute the same text. -/
theorem online_status_buckets :
    ∀ (u : PresenceInfo) (now : Int),
      (u.isOnline = some true →
        chatGetOnlineStatus u now = "Online"
        ∧ dashboardGetOnlineStatus u now = "Online"
        ∧ (matchesGetOnlineStatus u now).1 = "Online")
      ∧ (∀ ls m r : Int, u.isOnline ≠ some true → u.lastSeen = some ls →
          now - ls = m * 60000 + r → 0 ≤ r → r < 60000 →
          ((m < 60 → chatGetOnlineStatus u now = toString m ++ "m ago")
            ∧ (60 ≤ m → m < 1440 →
                chatGetOnlineStatus u now = toString (Int.fdiv m 60) ++ "h ago")
            ∧ (1440 ≤ m →
                chatGetOnlineStatus u now = toString (Int.fdiv m 1440) ++ "d ago")))
      ∧ (dashboardGetOnlineStatus u now = chatGetOnlineStatus u now
          ∧ (matchesGetOnlineStatus u now).1 = chatGetOnlineStatus u now) := by
  intro u now
  refine ⟨?_, ?_, ?_⟩
  · intro h
    refine ⟨?_, ?_, ?_⟩ <;> simp [chatGetOnlineStatus, dashboardGetOnlineStatus,
      matchesGetOnlineStatus, h]
  · intro ls m r hon hls hdiff hr0 hr1
    have hdm : Int.fdiv (now - ls) 60000 = m := by
      rw [hdiff, Int.fdiv_eq_ediv _ (by decide),
        show m * 60000 + r = r + m * 60000 by ring,
        Int.add_mul_ediv_right _ _ (by decide : (60000 : Int) ≠ 0),
        Int.ediv_eq_zero_of_lt hr0 hr1]
      ring
    refine ⟨?_, ?_, ?_⟩
    · intro hm
      simp only [chatGetOnlineStatus, if_neg hon, hls, hdm]
      rw [if_pos hm]
    · intro hm1 hm2
      simp only [chatGetOnlineStatus, if_neg hon, hls, hdm]
      rw [if_neg (by omega), if_pos hm2]
    · intro hm
      simp only [chatGetOnlineStatus, if_neg hon, hls, hdm]
      rw [if_neg (by omega), if_neg (by omega)]
  · constructor
    · rfl
    · rcases u with ⟨io, lsq⟩
      by_cases hio : io = some true
      · simp [matchesGetOnlineStatus, chatGetOnlineStatus, hio]
      · cases lsq with
        | none =>
            simp [matchesGetOnlineStatus, chatGetOnlineStatus, hio]
        | some ls =>
            simp only [matchesGetOnlineStatus, chatGetOnlineStatus, hio]
            split_ifs <;> simp_all

/-- C7 witness: 10 minutes ago yields "10m ago", 90 minutes ago "1h ago",
2 days ago "2d ago", and `isOnline = true` yields "Online" in all three
copies. -/
theorem online_status_buckets_witness :
    chatGetOnlineStatus { isOnline := some false, lastSeen := some 0 } 600000 = "10m ago"
    ∧ chatGetOnlineStatus { isOnline := none, lastSeen := some 0 } 5400000 = "1h ago"
    ∧ chatGetOnlineStatus { isOnline := some false, lastSeen := some 0 } 172800000 = "2d ago"
    ∧ chatGetOnlineStatus { isOnline := some true, lastSeen := some 0 } 600000 = "Online"
    ∧ dashboardGetOnlineStatus { isOnline := some true, lastSeen := some 0 } 600000 = "Online"
    ∧ (matchesGetOnlineStatus { isOnline := some true, lastSeen := some 0 } 600000).1 = "Online" := by
  have h10 := ((online_status_buckets { isOnline := some false, lastSeen := some 0 }
    600000).2.1 0 10 0 (by decide) rfl (by decide) (by decide) (by decide)).1 (by decide)
  have h90 := ((online_status_buckets { isOnline := none, lastSeen := some 0 }
    5400000).2.1 0 90 0 (by decide) rfl (by decide) (by decide) (by decide)).2.1
    (by decide) (by decide)
  have h2d := ((online_status_buckets { isOnline := some false, lastSeen := some 0 }
    172800000).2.1 0 2880 0 (by decide) rfl (by decide) (by decide) (by decide)).2.2
    (by decide)
  have hon := (online_status_buckets { isOnline := some true, lastSeen := some 0 }
    600000).1 rfl
  exact ⟨h10, h90, h2d, hon.1, hon.2.1, hon.2.2⟩

/- ===== C1 ===== -/

/-- C1 counterexample: at the end of the mount pass of a chat screen for
conversation "c1" the listeners are already registered while the history
fetch is still pending (the mount trace is fetch-start then subscribe, with
the fetch resolution necessarily later) — refuting "the subscription is
created only after the fetch resolves" — and a matching live message
delivered in that window is silently dropped: the handler leaves the null
chat unchanged, and after the fetch resolves the timeline is the bare
fetched history, without the live message. -/
theorem chat_subscription_order_counterexample :
    ((mountChatScreen (some "c1")).1.subscribed = true
      ∧ (mountChatScreen (some "c1")).1.fetchPending = true
      ∧ (mountChatScreen (some "c1")).2 = [MountAction.fetchStart, MountAction.subscribe])
    ∧ (receiveMessage { chatId := "c1", sender := "u2", message := "hi", timestamp := 5 }
        99 (mountChatScreen (some "c1")).1).chat = none
    ∧ (applyFetchResolve { id := "c1", participants := [], messages := [] }
        (receiveMessage { chatId := "c1", sender := "u2", message := "hi", timestamp := 5 }
          99 (mountChatScreen (some "c1")).1)).chat
      = some { id := "c1", participants := [], messages := [] } := by
  refine ⟨⟨?_, ?_, ?_⟩, ?_, ?_⟩ <;> rfl

/-- C1 amended: the subscription is registered synchronously during mount,
concurrently with — not after — the history fetch (the mount trace is
fetch-start then subscribe, with the fetch still pending); consequently a
live message for this conversation that arrives before the fetch resolves
is silently dropped: the receive handler leaves the still-null chat
unchanged, and the fetch resolution installs exactly the fetched history. -/
theorem chat_subscription_order_amended :
    ∀ (cid : String) (d : LiveMessage) (now : Int) (history : ChatData),
      cid ≠ "" → d.chatId = cid →
      ((mountChatScreen (some cid)).1.subscribed = true
        ∧ (mountChatScreen (some cid)).1.fetchPending = true
        ∧ (mountChatScreen (some cid)).2 = [MountAction.fetchStart, MountAction.subscribe])
      ∧ (receiveMessage d now (mountChatScreen (some cid)).1).chat = none
      ∧ (applyFetchResolve history
            (receiveMessage d now (mountChatScreen (some cid)).1)).chat = some history := by
  intro cid d now history hcid hd
  have hmiss : chatIdMissing (some cid) = false := by
    simp [chatIdMissing, hcid]
  have hmount : (mountChatScreen (some cid)).1
      = { chatId := some cid, chat := none, newMessage := "", sending := false,
          typing := false, otherUserTyping := false, subscribed := true,
          fetchPending := true } := by
    simp [mountChatScreen, hmiss]
  refine ⟨⟨?_, ?_, ?_⟩, ?_, ?_⟩
  · rw [hmount]
  · rw [hmount]
  · simp [mountChatScreen, hmiss]
  · rw [hmount]
    simp [receiveMessage]
  · rw [hmount]
    simp [receiveMessage, applyFetchResolve]

/-- C1 witness for the amended statement, at a concrete conversation and
message. -/
theorem chat_subscription_order_amended_witness :
    (receiveMessage { chatId := "c9", sender := "u2", message := "yo", timestamp := 3 }
        42 (mountChatScreen (some "c9")).1).chat = none
    ∧ (applyFetchResolve { id := "c9", participants := [], messages := [] }
        (receiveMessage { chatId := "c9", sender := "u2", message := "yo", timestamp := 3 }
          42 (mountChatScreen (some "c9")).1)).chat
      = some { id := "c9", participants := [], messages := [] } := by
  have h := chat_subscription_order_amended "c9"
    { chatId := "c9", sender := "u2", message := "yo", timestamp := 3 } 42
    { id := "c9", participants := [], messages := [] } (by decide) rfl
  exact ⟨h.2.1, h.2.2⟩

/- ===== C5 ===== -/

/-- C5: with the chat loaded and the listeners registered, a
`receive_message` event for this conversation id appends exactly the
constructed live message to the timeline (strictly changing it), and an
event tagged with any other conversation id leaves the screen state
entirely unchanged. -/
theorem receive_message_conversation_filter :
    ∀ (d : LiveMessage) (now : Int) (s : ChatScreen) (c : ChatData),
      s.subscribed = true → s.chat = some c →
      ((s.chatId = some d.chatId →
          (receiveMessage d now s).chat
            = some { c with messages := c.messages ++ [liveToMessage d now] }
          ∧ (receiveMessage d now s).chat ≠ s.chat)
        ∧ (s.chatId ≠ some d.chatId → receiveMessage d now s = s)) := by
  intro d now s c hsub hchat
  constructor
  · intro hid
    constructor
    · simp [receiveMessage, hsub, hid, hchat]
    · simp only [receiveMessage, hsub, hid, and_self, if_true, hchat]
      intro heq
      simp only [Option.some.injEq] at heq
      have hlen := congrArg (fun cc => cc.messages.length) heq
      simp at hlen
  · intro hid
    simp [receiveMessage, hid]

/-- C5 witness: a matching event appends, a mismatched event is a no-op, on
a concrete loaded screen. -/
theorem receive_message_conversation_filter_witness :
    (receiveMessage { chatId := "c1", sender := "u2", message := "hi", timestamp := 7 } 50
        { chatId := some "c1", chat := some { id := "c1", participants := [], messages := [] },
          newMessage := "", sending := false, typing := false, otherUserTyping := false,
          subscribed := true, fetchPending := false }).chat
      = some { id := "c1", participants := [],
               messages := [liveToMessage
                 { chatId := "c1", sender := "u2", message := "hi", timestamp := 7 } 50] }
    ∧ receiveMessage { chatId := "c2", sender := "u2", message := "hi", timestamp := 7 } 50
        { chatId := some "c1", chat := some { id := "c1", participants := [], messages := [] },
          newMessage := "", sending := false, typing := false, otherUserTyping := false,
          subscribed := true, fetchPending := false }
      = { chatId := some "c1", chat := some { id := "c1", participants := [], messages := [] },
          newMessage := "", sending := false, typing := false, otherUserTyping := false,
          subscribed := true, fetchPending := false } := by
  constructor
  · exact ((receive_message_conversation_filter
      { chatId := "c1", sender := "u2", message := "hi", timestamp := 7 } 50 _
      { id := "c1", participants := [], messages := [] } rfl rfl).1 rfl).1
  · exact (receive_message_conversation_filter
      { chatId := "c2", sender := "u2", message := "hi", timestamp := 7 } 50 _
      { id := "c1", participants := [], messages := [] } rfl rfl).2 (by decide)

/- ===== C9 ===== -/

/-- C9: with the listeners registered, `user_typing` sets and
`user_stop_typing` clears the other-party-typing flag exactly when the
event carries this conversation's id and a sender id different from the
viewing identity's; events originated by the viewer, or tagged for another
conversation, leave the state entirely unchanged. -/
theorem typing_events_filter :
    ∀ (v : String) (d : TypingEventData) (s : ChatScreen),
      s.subscribed = true →
      ((s.chatId = some d.chatId → d.userId ≠ v →
          (userTypingOn v d s).otherUserTyping = true
          ∧ (userTypingOff v d s).otherUserTyping = false)
        ∧ (d.userId = v → userTypingOn v d s = s ∧ userTypingOff v d s = s)
        ∧ (s.chatId ≠ some d.chatId → userTypingOn v d s = s ∧ userTypingOff v d s = s)) := by
  intro v d s hsub
  refine ⟨?_, ?_, ?_⟩
  · intro hid hv
    constructor <;> simp [userTypingOn, userTypingOff, hsub, hid, hv]
  · intro hv
    constructor <;> simp [userTypingOn, userTypingOff, hv]
  · intro hid
    constructor <;> simp [userTypingOn, userTypingOff, hid]

/-- C9 witness: concrete typing events — from the counterpart (flag set
then cleared), from the viewer (ignored), and for another conversation
(ignored). -/
theorem typing_events_filter_witness :
    (userTypingOn "me" { chatId := "c1", userId := "you" }
        { chatId := some "c1", chat := none, newMessage := "", sending := false,
          typing := false, otherUserTyping := false, subscribed := true,
          fetchPending := false }).otherUserTyping = true
    ∧ (userTypingOff "me" { chatId := "c1", userId := "you" }
        { chatId := some "c1", chat := none, newMessage := "", sending := false,
          typing := false, otherUserTyping := true, subscribed := true,
          fetchPending := false }).otherUserTyping = false
    ∧ userTypingOn "me" { chatId := "c1", userId := "me" }
        { chatId := some "c1", chat := none, newMessage := "", sending := false,
          typing := false, otherUserTyping := false, subscribed := true,
          fetchPending := false }
      = { chatId := some "c1", chat := none, newMessage := "", sending := false,
          typing := false, otherUserTyping := false, subscribed := true,
          fetchPending := false }
    ∧ userTypingOn "me" { chatId := "c2", userId := "you" }
        { chatId := some "c1", chat := none, newMessage := "", sending := false,
          typing := false, otherUserTyping := false, subscribed := true,
          fetchPending := false }
      = { chatId := some "c1", chat := none, newMessage := "", sending := false,
          typing := false, otherUserTyping := false, subscribed := true,
          fetchPending := false } := by
  refine ⟨?_, ?_, ?_, ?_⟩
  · exact ((typing_events_filter "me" { chatId := "c1", userId := "you" } _ rfl).1
      rfl (by decide)).1
  · exact ((typing_events_filter "me" { chatId := "c1", userId := "you" } _ rfl).1
      rfl (by decide)).2
  · exact ((typing_events_filter "me" { chatId := "c1", userId := "me" } _ rfl).2.1 rfl).1
  · exact ((typing_events_filter "me" { chatId := "c2", userId := "you" } _ rfl).2.2
      (by decide)).1

/- ===== C10 ===== -/

/-- C10: when the input is empty after trimming, or a prior send is still
in flight, or no conversation id is present (missing or empty route param),
submitting the send form performs no API call, no socket emission and no
typing-stop, and leaves the whole screen state — timeline, input field and
typing flag included — unchanged, whatever the would-be outcome. -/
theorem send_guard_noop :
    ∀ (s : ChatScreen) (outcome : Except Unit Message),
      (jsTrim s.newMessage = "" ∨ s.sending = true ∨ chatIdMissing s.chatId = true) →
      handleSendMessage s outcome
        = (s, { apiPost := none, socketSend := none, stopEmitted := false }) := by
  intro s outcome h
  cases hcid : s.chatId with
  | none => simp [handleSendMessage, handleSendSync, hcid]
  | some cid =>
      have hguard : jsTrim s.newMessage = "" ∨ s.sending = true ∨ cid = "" := by
        rcases h with h | h | h
        · exact Or.inl h
        · exact Or.inr (Or.inl h)
        · rw [hcid] at h
          simp [chatIdMissing] at h
          exact Or.inr (Or.inr h)
      simp [handleSendMessage, handleSendSync, hcid, if_pos hguard]

/-- C10 witness: a whitespace-only input, an in-flight send, and a missing
conversation id each leave a concrete screen untouched with no effects. -/
theorem send_guard_noop_witness :
    handleSendMessage
        { chatId := some "c1", chat := none, newMessage := "   ", sending := false,
          typing := false, otherUserTyping := false, subscribed := true,
          fetchPending := false } (Except.error ())
      = ({ chatId := some "c1", chat := none, newMessage := "   ", sending := false,
           typing := false, otherUserTyping := false, subscribed := true,
           fetchPending := false },
         { apiPost := none, socketSend := none, stopEmitted := false })
    ∧ handleSendMessage
        { chatId := some "c1", chat := none, newMessage := "hi", sending := true,
          typing := true, otherUserTyping := false, subscribed := true,
          fetchPending := false } (Except.ok defaultMessage)
      = ({ chatId := some "c1", chat := none, newMessage := "hi", sending := true,
           typing := true, otherUserTyping := false, subscribed := true,
           fetchPending := false },
         { apiPost := none, socketSend := none, stopEmitted := false })
    ∧ handleSendMessage
        { chatId := none, chat := none, newMessage := "hi", sending := false,
          typing := false, otherUserTyping := false, subscribed := false,
          fetchPending := false } (Except.ok defaultMessage)
      = ({ chatId := none, chat := none, newMessage := "hi", sending := false,
           typing := false, otherUserTyping := false, subscribed := false,
           fetchPending := false },
         { apiPost := none, socketSend := none, stopEmitted := false }) := by
  refine ⟨?_, ?_, ?_⟩
  · exact send_guard_noop _ _ (Or.inl (by decide))
  · exact send_guard_noop _ _ (Or.inr (Or.inl rfl))
  · exact send_guard_noop _ _ (Or.inr (Or.inr rfl))

/- ===== C3 ===== -/

/-- C3: on a valid submit, the input field and the typing flag are cleared
in the synchronous part of `handleSendMessage`, before the durable POST
(carrying the trimmed content) resolves, the timeline still untouched at
that point; on success the server-returned message — and nothing else — is
appended to the timeline and the `send_message` socket emission is made; on
failure the trimmed content is restored into the input, no message is
appended, no socket emission is made, and the typing flag stays cleared —
the input clearing is the only change rolled back. -/
theorem send_message_optimistic :
    ∀ (s : ChatScreen) (cid : String) (c : ChatData),
      s.chatId = some cid → cid ≠ "" → jsTrim s.newMessage ≠ "" → s.sending = false →
      s.chat = some c →
      ((handleSendSync s).1.newMessage = ""
        ∧ (handleSendSync s).1.typing = false
        ∧ (handleSendSync s).1.chat = s.chat
        ∧ (handleSendSync s).2.1 = some (cid, jsTrim s.newMessage))
      ∧ (∀ m : Message,
          (handleSendMessage s (Except.ok m)).1.chat
              = some { c with messages := c.messages ++ [m] }
            ∧ (handleSendMessage s (Except.ok m)).1.newMessage = ""
            ∧ (handleSendMessage s (Except.ok m)).1.sending = false
            ∧ (handleSendMessage s (Except.ok m)).2.apiPost = some (cid, jsTrim s.newMessage)
            ∧ (handleSendMessage s (Except.ok m)).2.socketSend = some (cid, jsTrim s.newMessage))
      ∧ ((handleSendMessage s (Except.error ())).1.chat = s.chat
          ∧ (handleSendMessage s (Except.error ())).1.newMessage = jsTrim s.newMessage
          ∧ (handleSendMessage s (Except.error ())).1.typing = false
          ∧ (handleSendMessage s (Except.error ())).1.sending = false
          ∧ (handleSendMessage s (Except.error ())).2.apiPost = some (cid, jsTrim s.newMessage)
          ∧ (handleSendMessage s (Except.error ())).2.socketSend = none) := by
  intro s cid c hcid hne htrim hsending hchat
  have hguard : ¬(jsTrim s.newMessage = "" ∨ s.sending = true ∨ cid = "") := by
    rw [hsending]
    simp [htrim, hne]
  have hsync : handleSendSync s
      = (if s.typing
          then { s with sending := true, newMessage := "", typing := false }
          else { s with sending := true, newMessage := "" },
         some (cid, jsTrim s.newMessage), s.typing) := by
    simp only [handleSendSync, hcid, if_neg hguard]
  refine ⟨?_, ?_, ?_⟩
  · rw [hsync]
    cases hty : s.typing <;> simp [hty, hsending]
  · intro m
    simp only [handleSendMessage, hsync, handleSendResume]
    cases hty : s.typing <;> simp [hty, hchat]
  · simp only [handleSendMessage, hsync, handleSendResume]
    cases hty : s.typing <;> simp [hty, hchat, hsending]

/-- C3 witness: a concrete valid submit, run to a success and to a
failure. -/
theorem send_message_optimistic_witness :
    ((handleSendSync
        { chatId := some "c1",
          chat := some { id := "c1", participants := [], messages := [] },
          newMessage := " hello ", sending := false, typing := true,
          otherUserTyping := false, subscribed := true, fetchPending := false }).1.newMessage = ""
      ∧ (handleSendSync
        { chatId := some "c1",
          chat := some { id := "c1", participants := [], messages := [] },
          newMessage := " hello ", sending := false, typing := true,
          otherUserTyping := false, subscribed := true, fetchPending := false }).1.typing = false)
    ∧ (handleSendMessage
        { chatId := some "c1",
          chat := some { id := "c1", participants := [], messages := [] },
          newMessage := " hello ", sending := false, typing := true,
          otherUserTyping := false, subscribed := true, fetchPending := false }
        (Except.ok defaultMessage)).1.chat
      = some { id := "c1", participants := [], messages := [defaultMessage] }
    ∧ (handleSendMessage
        { chatId := some "c1",
          chat := some { id := "c1", participants := [], messages := [] },
          newMessage := " hello ", sending := false, typing := true,
          otherUserTyping := false, subscribed := true, fetchPending := false }
        (Except.error ())).1.newMessage = "hello" := by
  have h := send_message_optimistic
    { chatId := some "c1",
      chat := some { id := "c1", participants := [], messages := [] },
      newMessage := " hello ", sending := false, typing := true,
      otherUserTyping := false, subscribed := true, fetchPending := false }
    "c1" { id := "c1", participants := [], messages := [] }
    rfl (by decide) (by decide) rfl rfl
  exact ⟨⟨h.1.1, h.1.2.1⟩, (h.2.1 defaultMessage).1, h.2.2.2.1.trans (by decide)⟩

/- ===== C2 ===== -/

/-- With the flag already up, a keystroke emits nothing and re-arms the
timer with a truthfully-captured flag. -/
lemma keystrokes_when_typing :
    ∀ (n : Nat) (s : TypingDebounce), s.typing = true →
      keystrokes (n + 1) s = { s with timer := some true } := by
  intro n
  induction n with
  | zero =>
      intro s h
      simp [keystrokes, handleTyping, h]
  | succ k ih =>
      intro s h
      show keystrokes (k + 1) (handleTyping s) = _
      have hh : handleTyping s = { s with timer := some true } := by
        simp [handleTyping, h]
      rw [hh]
      exact ih _ h

/-- Bursts of two or more keystrokes do behave as the spec says: one
`typing_start`, then one `typing_stop` on expiry, flag cleared — the defect
is confined to the single-keystroke burst. -/
theorem typing_burst_of_two_or_more_ok :
    ∀ n : Nat,
      (typingTimerFire (keystrokes (n + 2) initialTyping)).emitted
          = [TypingSignal.start, TypingSignal.stop]
        ∧ (typingTimerFire (keystrokes (n + 2) initialTyping)).typing = false := by
  intro n
  have h1 : keystrokes (n + 2) initialTyping
      = { typing := true, timer := some true, emitted := [TypingSignal.start] } := by
    show keystrokes (n + 1) (handleTyping initialTyping) = _
    have h0 : handleTyping initialTyping
        = { typing := true, timer := some false, emitted := [TypingSignal.start] } := by
      simp [handleTyping, initialTyping]
    rw [h0, keystrokes_when_typing n _ rfl]
  rw [h1]
  constructor <;> rfl

/-- C2 (failing input): a burst consisting of a single keystroke from the
idle state emits `typing_start`, but when the 1-second idle timer fires
the callback reads the stale captured `typing` value (`false`), so no
`typing_stop` is ever emitted and the local typing flag stays set — against
the claim's "exactly one typing-stopped event is emitted 1 second after
the last keystroke, at which point the local typing flag is cleared". -/
theorem typing_single_keystroke_no_stop :
    (typingTimerFire (keystrokes 1 initialTyping)).emitted = [TypingSignal.start]
    ∧ (typingTimerFire (keystrokes 1 initialTyping)).typing = true := by
  constructor <;> rfl

/- ===== C4 ===== -/

/-- C4: a swipe decision is a no-op (no POST, no state change, no toast)
while a prior decision is in flight or the cursor is at or past the end of
the batch; on success strictly inside the batch the cursor advances by
exactly one and no refetch happens; on success at the last candidate a
refetch with the current filters is requested and, when it succeeds, the
new batch is installed with the cursor reset to zero; on failure the cursor
and the batch are unchanged and an error is surfaced. -/
theorem swipe_cursor_contract :
    ∀ (a : SwipeAction) (resp : SwipeResponse)
      (fetchOutcome : Except Unit (List Candidate)) (d : Dashboard),
      ((d.swiping = true ∨ d.currentIndex ≥ d.potentialMatches.length →
          ∀ outcome, handleSwipe a outcome fetchOutcome d
            = (d, { posted := none, matchToast := false, errorToast := false,
                    refetchRequested := none }))
        ∧ (d.swiping = false → d.currentIndex + 1 < d.potentialMatches.length →
            (handleSwipe a (Except.ok resp) fetchOutcome d).1.currentIndex
                = d.currentIndex + 1
            ∧ (handleSwipe a (Except.ok resp) fetchOutcome d).1.potentialMatches
                = d.potentialMatches
            ∧ (handleSwipe a (Except.ok resp) fetchOutcome d).2.refetchRequested = none)
        ∧ (d.swiping = false → d.currentIndex + 1 = d.potentialMatches.length →
            (handleSwipe a (Except.ok resp) fetchOutcome d).2.refetchRequested
                = some d.filters
            ∧ (∀ batch, fetchOutcome = Except.ok batch →
                (handleSwipe a (Except.ok resp) fetchOutcome d).1.potentialMatches = batch
                ∧ (handleSwipe a (Except.ok resp) fetchOutcome d).1.currentIndex = 0))
        ∧ (d.swiping = false → d.currentIndex < d.potentialMatches.length →
            (handleSwipe a (Except.error ()) fetchOutcome d).1 = d
            ∧ (handleSwipe a (Except.error ()) fetchOutcome d).2.errorToast = true)) := by
  intro a resp fetchOutcome d
  refine ⟨?_, ?_, ?_, ?_⟩
  · intro hguard outcome
    have h : d.swiping = true ∨ d.currentIndex ≥ d.potentialMatches.length := hguard
    simp [handleSwipe, if_pos h]
  · intro hsw hlt
    have hguard : ¬(d.swiping = true ∨ d.currentIndex ≥ d.potentialMatches.length) := by
      rw [hsw]
      simp
      omega
    have hin : d.currentIndex < d.potentialMatches.length - 1 := by omega
    simp [handleSwipe, if_neg hguard, if_pos hin]
  · intro hsw hlast
    have hguard : ¬(d.swiping = true ∨ d.currentIndex ≥ d.potentialMatches.length) := by
      rw [hsw]
      simp
      omega
    have hin : ¬(d.currentIndex < d.potentialMatches.length - 1) := by omega
    refine ⟨?_, ?_⟩
    · simp [handleSwipe, if_neg hguard, if_neg hin]
    · intro batch hb
      subst hb
      simp [handleSwipe, if_neg hguard, if_neg hin, fetchPotentialMatchesResolve]
  · intro hsw hlt
    have hguard : ¬(d.swiping = true ∨ d.currentIndex ≥ d.potentialMatches.length) := by
      rw [hsw]
      simp
      omega
    constructor
    · have hres : (handleSwipe a (Except.error ()) fetchOutcome d).1
          = { d with swiping := false } := by
        simp [handleSwipe, if_neg hguard]
      rw [hres]
      rcases d with ⟨pm, ci, sw, fl⟩
      have hsw2 : sw = false := hsw
      subst hsw2
      rfl
    · simp [handleSwipe, if_neg hguard]

/-- C4 witness: the contract evaluated on concrete dashboard states — an
in-flight guard no-op, a mid-batch success advancing the cursor by one, a
last-candidate success refetching and resetting the cursor, and a
failure leaving the state unchanged. -/
theorem swipe_cursor_contract_witness :
    handleSwipe SwipeAction.like (Except.ok { isMatch := false }) (Except.ok [])
        { potentialMatches := [{ id := "p1" }], currentIndex := 0, swiping := true,
          filters := {} }
      = ({ potentialMatches := [{ id := "p1" }], currentIndex := 0, swiping := true,
           filters := {} },
         { posted := none, matchToast := false, errorToast := false,
           refetchRequested := none })
    ∧ (handleSwipe SwipeAction.like (Except.ok { isMatch := false }) (Except.ok [])
        { potentialMatches := [{ id := "p1" }, { id := "p2" }], currentIndex := 0,
          swiping := false, filters := {} }).1.currentIndex = 1
    ∧ (handleSwipe SwipeAction.pass (Except.ok { isMatch := true })
        (Except.ok [{ id := "p3" }])
        { potentialMatches := [{ id := "p1" }, { id := "p2" }], currentIndex := 1,
          swiping := false, filters := {} }).1.potentialMatches = [{ id := "p3" }]
    ∧ (handleSwipe SwipeAction.pass (Except.ok { isMatch := true })
        (Except.ok [{ id := "p3" }])
        { potentialMatches := [{ id := "p1" }, { id := "p2" }], currentIndex := 1,
          swiping := false, filters := {} }).1.currentIndex = 0
    ∧ (handleSwipe SwipeAction.like (Except.error ()) (Except.ok [])
        { potentialMatches := [{ id := "p1" }, { id := "p2" }], currentIndex := 1,
          swiping := false, filters := {} }).1
      = { potentialMatches := [{ id := "p1" }, { id := "p2" }], currentIndex := 1,
          swiping := false, filters := {} } := by
  refine ⟨?_, ?_, ?_, ?_, ?_⟩
  · exact (swipe_cursor_contract SwipeAction.like { isMatch := false } (Except.ok [])
      _).1 (Or.inl rfl) _
  · exact ((swipe_cursor_contract SwipeAction.like { isMatch := false } (Except.ok [])
      _).2.1 rfl (by decide)).1
  · exact (((swipe_cursor_contract SwipeAction.pass { isMatch := true }
      (Except.ok [{ id := "p3" }]) _).2.2.1 rfl (by decide)).2 _ rfl).1
  · exact (((swipe_cursor_contract SwipeAction.pass { isMatch := true }
      (Except.ok [{ id := "p3" }]) _).2.2.1 rfl (by decide)).2 _ rfl).2
  · exact ((swipe_cursor_contract SwipeAction.like { isMatch := false } (Except.ok [])
      _).2.2.2 rfl (by decide)).1

/- ===== C8 ===== -/

/-- The flag list is as long as the timeline. -/
lemma dateSeparatorFlags_length (tz : Int) :
    ∀ (prev : Option Message) (msgs : List Message),
      (dateSeparatorFlags tz prev msgs).length = msgs.length := by
  intro prev msgs
  induction msgs generalizing prev with
  | nil => rfl
  | cons m rest ih => simp [dateSeparatorFlags, ih]

/-- Element `i` of the flag list is the separator decision between message
`i` and its immediate predecessor (`prev` for `i = 0`). -/
lemma dateSeparatorFlags_getD (tz : Int) :
    ∀ (msgs : List Message) (prev : Option Message) (i : Nat), i < msgs.length →
      (dateSeparatorFlags tz prev msgs).getD i false
        = shouldShowDateSeparator tz (msgs.getD i defaultMessage)
            (if i = 0 then prev else some (msgs.getD (i - 1) defaultMessage)) := by
  intro msgs
  induction msgs with
  | nil =>
      intro prev i hi
      simp at hi
  | cons m rest ih =>
      intro prev i hi
      cases i with
      | zero => simp [dateSeparatorFlags]
      | succ k =>
          have hk : k < rest.length := by simpa using hi
          simp only [dateSeparatorFlags, List.getD_cons_succ]
          rw [ih (some m) k hk]
          cases k with
          | zero => simp
          | succ j => simp

/-- The local calendar day is monotone in the timestamp. -/
lemma toDateString_mono (tz : Int) {a b : Int} (h : a ≤ b) :
    toDateString tz a ≤ toDateString tz b := by
  unfold toDateString
  rw [Int.fdiv_eq_ediv (a + tz) (by decide), Int.fdiv_eq_ediv (b + tz) (by decide)]
  exact Int.ediv_le_ediv (by decide) (by omega)

/-- In a timeline with ascending timestamps the days are ascending. -/
lemma dayAt_mono (tz : Int) (msgs : List Message)
    (hs : List.Pairwise (fun a b : Message => a.timestamp ≤ b.timestamp) msgs) :
    ∀ j k, j ≤ k → k < msgs.length → dayAt tz msgs j ≤ dayAt tz msgs k := by
  intro j k hjk hk
  rcases Nat.eq_or_lt_of_le hjk with heq | hlt
  · subst heq
    exact le_refl _
  · have hj : j < msgs.length := lt_trans hlt hk
    unfold dayAt
    rw [List.getD_eq_getElem msgs defaultMessage hj, List.getD_eq_getElem msgs defaultMessage hk]
    exact toDateString_mono tz
      (List.pairwise_iff_get.mp hs ⟨j, hj⟩ ⟨k, hk⟩ hlt)

/-- C8: over a timeline in ascending timestamp order, the render loop shows
a separator before message `i` exactly when no earlier message falls on the
same local calendar day (i.e. exactly before the first message of each
distinct day); the separator is labeled "Today" for the render-time current
day, "Yesterday" for the previous day, and the locale date rendering for
any other day. -/
theorem date_separator_rule :
    ∀ (tz now : Int) (msgs : List Message),
      List.Pairwise (fun a b : Message => a.timestamp ≤ b.timestamp) msgs →
      (∀ i, i < msgs.length →
        ((dateSeparatorFlags tz none msgs).getD i false = true
          ↔ ∀ j, j < i → dayAt tz msgs j ≠ dayAt tz msgs i))
      ∧ (∀ ts : Int,
          (toDateString tz ts = toDateString tz now →
            formatDateSeparator tz now ts = "Today")
          ∧ (toDateString tz ts = toDateString tz now - 1 →
            formatDateSeparator tz now ts = "Yesterday")
          ∧ (toDateString tz ts ≠ toDateString tz now →
            toDateString tz ts ≠ toDateString tz now - 1 →
            formatDateSeparator tz now ts = toLocaleDateString tz ts)) := by
  intro tz now msgs hs
  constructor
  · intro i hi
    rw [dateSeparatorFlags_getD tz msgs none i hi]
    cases i with
    | zero =>
        simp [shouldShowDateSeparator]
    | succ k =>
        have hk1 : ¬(k + 1 = 0) := by omega
        rw [if_neg hk1]
        show (decide (dayAt tz msgs (k + 1) ≠ dayAt tz msgs k) = true) ↔ _
        rw [decide_eq_true_eq]
        constructor
        · intro hne j hj
          have h1 : dayAt tz msgs j ≤ dayAt tz msgs k :=
            dayAt_mono tz msgs hs j k (by omega) (by omega)
          have h2 : dayAt tz msgs k ≤ dayAt tz msgs (k + 1) :=
            dayAt_mono tz msgs hs k (k + 1) (by omega) hi
          have h3 : dayAt tz msgs k < dayAt tz msgs (k + 1) :=
            lt_of_le_of_ne h2 (fun he => hne he.symm)
          intro heq
          omega
        · intro h he
          exact h k (by omega) he.symm
  · intro ts
    refine ⟨?_, ?_, ?_⟩
    · intro h
      unfold formatDateSeparator
      rw [if_pos h]
    · intro h
      have hne : toDateString tz ts ≠ toDateString tz now := by omega
      unfold formatDateSeparator
      rw [if_neg hne, if_pos h]
    · intro h1 h2
      unfold formatDateSeparator
      rw [if_neg h1, if_neg h2]

/-- C8 witness: three ascending messages — yesterday, today, today (later)
— render as separator("Yesterday"), separator("Today"), no separator. -/
theorem date_separator_rule_witness :
    (dateSeparatorFlags 0 none
        [{ defaultMessage with timestamp := 0 },
         { defaultMessage with timestamp := 86400000 },
         { defaultMessage with timestamp := 86400100 }]).getD 0 false = true
    ∧ (dateSeparatorFlags 0 none
        [{ defaultMessage with timestamp := 0 },
         { defaultMessage with timestamp := 86400000 },
         { defaultMessage with timestamp := 86400100 }]).getD 1 false = true
    ∧ (dateSeparatorFlags 0 none
        [{ defaultMessage with timestamp := 0 },
         { defaultMessage with timestamp := 86400000 },
         { defaultMessage with timestamp := 86400100 }]).getD 2 false = false
    ∧ formatDateSeparator 0 86400500 0 = "Yesterday"
    ∧ formatDateSeparator 0 86400500 86400100 = "Today" := by
  have hpair : List.Pairwise (fun a b : Message => a.timestamp ≤ b.timestamp)
      [{ defaultMessage with timestamp := 0 },
       { defaultMessage with timestamp := 86400000 },
       { defaultMessage with timestamp := 86400100 }] := by decide
  have h := date_separator_rule 0 86400500
    [{ defaultMessage with timestamp := 0 },
     { defaultMessage with timestamp := 86400000 },
     { defaultMessage with timestamp := 86400100 }] hpair
  refine ⟨?_, ?_, ?_, ?_, ?_⟩
  · exact (h.1 0 (by decide)).mpr (by decide)
  · exact (h.1 1 (by decide)).mpr (by decide)
  · have h2 := h.1 2 (by decide)
    have hnot : ¬∀ j, j < 2 →
        dayAt 0 [{ defaultMessage with timestamp := 0 },
          { defaultMessage with timestamp := 86400000 },
          { defaultMessage with timestamp := 86400100 }] j
          ≠ dayAt 0 [{ defaultMessage with timestamp := 0 },
          { defaultMessage with timestamp := 86400000 },
          { defaultMessage with timestamp := 86400100 }] 2 := by
      intro hall
      exact hall 1 (by decide) (by decide)
    rcases hb : (dateSeparatorFlags 0 none
        [{ defaultMessage with timestamp := 0 },
         { defaultMessage with timestamp := 86400000 },
         { defaultMessage with timestamp := 86400100 }]).getD 2 false with _ | _
    · rfl
    · exact absurd (h2.mp hb) hnot
  · exact (h.2 0).2.1 (by decide)
  · exact (h.2 86400100).1 (by decide)

end DevTinder
